import Mathlib

/-!
Verification of the ORDO agent-registry program (programs/agent-registry).

The development shallowly embeds the program's two registry instructions
(register_agent, update_reputation) and the permission hooks
(create_agent_permission, add_group_member, remove_group_member) as pure
state-transition functions over an explicit store keyed by derived (PDA)
addresses.  Machine integers are modelled as Int/Nat with explicit range
checks where the source checks them (i64 checked_add); strings are modelled
as byte sequences so that Rust's String::len (UTF-8 byte count) is the
list length.  Anchor/host transaction semantics — the accounts context
(including any account init) is resolved before the handler body runs, and
every failing instruction rolls back all of its writes — are embedded by
making each instruction a total function returning Except: the error case
carries no state, and the host-level "apply" wrapper keeps the pre-state.
-/

namespace AgentRegistry

/-- Public keys and program-derived addresses.  PDA derivation
(find_program_address over a seed tuple) is deterministic and
collision-free between distinct seed tuples, which the embedding captures
by injective, pairwise-distinct constructors: `agentPda a` stands for the
address of seeds ["agent", a] (register_agent.rs, permission_hooks.rs) and
`reputationPda ag r` for seeds ["reputation", ag, r]
(update_reputation.rs). -/
inductive Pubkey where
  | raw (n : Nat)
  | agentPda (authority : Pubkey)
  | reputationPda (agent : Pubkey) (rater : Pubkey)
deriving DecidableEq, Repr

/-- Byte strings: a Rust String as its UTF-8 byte sequence, so that
String::len is List.length. -/
abbrev Bytes := List Nat

/-- AgentAccount from state.rs: on-chain metadata for each agent.
reputation_score is an i64, embedded as Int together with the explicit
range check performed by checked_add; generation is a u32 embedded as Nat;
the PDA bump byte is abstracted as the fixed canonical value 255. -/
structure AgentAccount where
  authority : Pubkey
  name : Bytes
  description : Bytes
  agent_uri : Bytes
  services : List Bytes
  x402_support : Bool
  active : Bool
  parent_agent : Option Pubkey
  registered_at : Int
  reputation_score : Int
  generation : Nat
  bump : Nat
deriving DecidableEq, Repr

namespace AgentAccount

/-- Maximum lengths for dynamic fields, from state.rs. -/
def MAX_NAME_LEN : Nat := 50

def MAX_DESCRIPTION_LEN : Nat := 200

def MAX_URI_LEN : Nat := 200

def MAX_SERVICES : Nat := 10

def MAX_SERVICE_LEN : Nat := 50

/-- Fixed part of the account size from state.rs: discriminator, authority,
four string/vec length prefixes, two bools, Option<Pubkey> as 1 + 32,
registered_at, reputation_score, generation advisory and bump.  Equals
112. -/
def BASE_SIZE : Nat := 8 + 32 + 4 + 4 + 4 + 4 + 1 + 1 + 1 + 32 + 8 + 8 + 4 + 1

/-- Number of bytes Anchor writes when Borsh-serializing the account at
instruction exit: discriminator, authority, the three length-prefixed
strings, the length-prefixed vector of length-prefixed strings, the two
bools, the Option tag (plus 32 when Some), and the three integers plus
bump. -/
def serializedSize (a : AgentAccount) : Nat :=
  8 + 32 + (4 + a.name.length) + (4 + a.description.length) +
    (4 + a.agent_uri.length) + (4 + (a.services.map (fun s => 4 + s.length)).sum) +
    1 + 1 + (match a.parent_agent with | none => 1 | some _ => 33) + 8 + 8 + 4 + 1

end AgentAccount

/-- ReputationRecord from state.rs: one individual rating. -/
structure ReputationRecord where
  agent : Pubkey
  rater : Pubkey
  score : Int
  comment : Bytes
  timestamp : Int
  bump : Nat
deriving DecidableEq, Repr

namespace ReputationRecord

/-- Maximum comment length, from state.rs. -/
def MAX_COMMENT_LEN : Nat := 500

/-- Fixed part of the record size from state.rs: discriminator, agent,
rater, score, comment length prefix, timestamp and bump.  Equals 93. -/
def BASE_SIZE : Nat := 8 + 32 + 32 + 8 + 4 + 8 + 1

/-- Number of bytes Anchor writes when Borsh-serializing the record at
instruction exit: the fixed fields plus the length-prefixed comment. -/
def serializedSize (r : ReputationRecord) : Nat :=
  8 + 32 + 32 + 8 + (4 + r.comment.length) + 8 + 1

end ReputationRecord

/-- Errors an instruction can abort with.  The first eight are the named
variants of AgentRegistryError (errors.rs); accountAlreadyInUse is the
system error Anchor raises when an #[account(init)] PDA address is already
occupied (the spec's ConflictError); accountNotFound is the failure to
deserialize a required existing account; arithmeticOverflow is
ProgramError::ArithmeticOverflow raised by the checked_add in
update_reputation.rs; accountDidNotSerialize is Anchor's
AccountDidNotSerialize error raised at instruction exit when the record
does not fit in the bytes allocated at init. -/
inductive RegError where
  | nameTooLong
  | descriptionTooLong
  | uriTooLong
  | tooManyServices
  | serviceNameTooLong
  | commentTooLong
  | invalidReputationScore
  | cannotRateSelf
  | accountAlreadyInUse
  | accountNotFound
  | arithmeticOverflow
  | accountDidNotSerialize
deriving DecidableEq, Repr

/-- Durable registry state: the two account stores, each keyed by the
account's address. -/
structure RegistryState where
  agents : Pubkey → Option AgentAccount
  ratings : Pubkey → Option ReputationRecord

/-- Write an AgentAccount at an address. -/
def setAgent (st : RegistryState) (addr : Pubkey) (a : AgentAccount) : RegistryState :=
  { st with agents := fun k => if k = addr then some a else st.agents k }

/-- Write a ReputationRecord at an address. -/
def setRating (st : RegistryState) (addr : Pubkey) (r : ReputationRecord) : RegistryState :=
  { st with ratings := fun k => if k = addr then some r else st.ratings k }

/-- The state with no accounts. -/
def emptySt : RegistryState := { agents := fun _ => none, ratings := fun _ => none }

/-- i64::MIN. -/
def I64_MIN : Int := -(2 ^ 63)

/-- i64::MAX. -/
def I64_MAX : Int := 2 ^ 63 - 1

/-- i64::checked_add — some (a + b) when the mathematical sum is
representable, none on overflow. -/
def checked_add_i64 (a b : Int) : Option Int :=
  if I64_MIN ≤ a + b ∧ a + b ≤ I64_MAX then some (a + b) else none

/-- Arguments of the register_agent instruction (lib.rs): there is no
parent parameter. -/
structure RegisterArgs where
  name : Bytes
  description : Bytes
  agent_uri : Bytes
  services : List Bytes
  x402_support : Bool
  generation : Nat
deriving DecidableEq, Repr

/-- The fully-initialized AgentAccount written by the register_agent
handler (register_agent.rs, lines 59-70): every field from the arguments,
with active = true, parent_agent = None, reputation_score = 0 and
registered_at = now. -/
def newAgentRecord (authority : Pubkey) (args : RegisterArgs) (now : Int) : AgentAccount :=
  { authority := authority
    name := args.name
    description := args.description
    agent_uri := args.agent_uri
    services := args.services
    x402_support := args.x402_support
    active := true
    parent_agent := none
    registered_at := now
    reputation_score := 0
    generation := args.generation
    bump := 255 }

/-- register_agent (register_agent.rs).  Accounts context first: the
agent_account is #[account(init, seeds = ["agent", authority], bump)], so
Anchor aborts with the account-already-in-use system error when the PDA is
occupied, before the handler body runs.  The handler then validates the
five length bounds in source order and initializes every field, with
reputation_score = 0, active = true, parent_agent = None and
registered_at = now (Clock::get).  The account is allocated a fixed
space = AgentAccount::BASE_SIZE + 256 bytes (register_agent.rs line 11,
ignoring the AgentAccount::space helper), so after the handler returns,
Anchor's exit serialization aborts with AccountDidNotSerialize whenever
the record's serialized form exceeds that allocation. -/
def registerAgent (st : RegistryState) (authority : Pubkey) (args : RegisterArgs)
    (now : Int) : Except RegError RegistryState :=
  match st.agents (Pubkey.agentPda authority) with
  | some _ => .error .accountAlreadyInUse
  | none =>
    if args.name.length > AgentAccount.MAX_NAME_LEN then .error .nameTooLong
    else if args.description.length > AgentAccount.MAX_DESCRIPTION_LEN then
      .error .descriptionTooLong
    else if args.agent_uri.length > AgentAccount.MAX_URI_LEN then .error .uriTooLong
    else if args.services.length > AgentAccount.MAX_SERVICES then .error .tooManyServices
    else if ∃ s ∈ args.services, s.length > AgentAccount.MAX_SERVICE_LEN then
      .error .serviceNameTooLong
    else if AgentAccount.serializedSize (newAgentRecord authority args now) >
        AgentAccount.BASE_SIZE + 256 then .error .accountDidNotSerialize
    else
      .ok (setAgent st (Pubkey.agentPda authority) (newAgentRecord authority args now))

/-- The ReputationRecord written by the update_reputation handler
(update_reputation.rs, lines 49-54). -/
def newRatingRecord (agent_key rater : Pubkey) (score : Int) (comment : Bytes)
    (now : Int) : ReputationRecord :=
  { agent := agent_key
    rater := rater
    score := score
    comment := comment
    timestamp := now
    bump := 255 }

/-- update_reputation (update_reputation.rs).  Accounts context first: the
agent_account must exist; the reputation_record is #[account(init, seeds =
["reputation", agent_account, rater], bump)], so an occupied PDA aborts
with the conflict error before the handler runs.  The handler validates
score range, comment length and the self-rating check in source order,
stores the record, and updates the agent's cumulative score with
i64::checked_add, aborting with ArithmeticOverflow when the sum leaves the
i64 range.  The record is allocated a fixed space =
ReputationRecord::BASE_SIZE + 256 bytes (update_reputation.rs line 13,
ignoring the ReputationRecord::space helper), so after the handler
returns, Anchor's exit serialization aborts with AccountDidNotSerialize
whenever the record's serialized form exceeds that allocation.  (The
agent account's own rewrite only replaces the fixed-width
reputation_score, so its serialized size never grows past what its
creation already fitted.) -/
def updateReputation (st : RegistryState) (agent_key rater : Pubkey) (score : Int)
    (comment : Bytes) (now : Int) : Except RegError RegistryState :=
  match st.agents agent_key with
  | none => .error .accountNotFound
  | some agent =>
    match st.ratings (Pubkey.reputationPda agent_key rater) with
    | some _ => .error .accountAlreadyInUse
    | none =>
      if ¬(-100 ≤ score ∧ score ≤ 100) then .error .invalidReputationScore
      else if comment.length > ReputationRecord.MAX_COMMENT_LEN then .error .commentTooLong
      else if agent.authority = rater then .error .cannotRateSelf
      else
        match checked_add_i64 agent.reputation_score score with
        | none => .error .arithmeticOverflow
        | some total =>
          if ReputationRecord.serializedSize (newRatingRecord agent_key rater score comment now) >
              ReputationRecord.BASE_SIZE + 256 then .error .accountDidNotSerialize
          else
            .ok (setRating
                  (setAgent st agent_key { agent with reputation_score := total })
                  (Pubkey.reputationPda agent_key rater)
                  (newRatingRecord agent_key rater score comment now))

/-- The post-state of a successful update_reputation call, given the
pre-call agent account. -/
def rateSuccessState (st : RegistryState) (agent_key rater : Pubkey) (score : Int)
    (comment : Bytes) (now : Int) (agent : AgentAccount) : RegistryState :=
  setRating
    (setAgent st agent_key { agent with reputation_score := agent.reputation_score + score })
    (Pubkey.reputationPda agent_key rater)
    (newRatingRecord agent_key rater score comment now)

/-- Host-level semantics of a register transaction: an aborting
instruction rolls back, leaving the pre-state. -/
def applyRegister (st : RegistryState) (authority : Pubkey) (args : RegisterArgs)
    (now : Int) : RegistryState :=
  match registerAgent st authority args now with
  | .ok st' => st'
  | .error _ => st

/-- Host-level semantics of a rate transaction: an aborting instruction
rolls back, leaving the pre-state. -/
def applyRate (st : RegistryState) (agent_key rater : Pubkey) (score : Int)
    (comment : Bytes) (now : Int) : RegistryState :=
  match updateReputation st agent_key rater score comment now with
  | .ok st' => st'
  | .error _ => st

/-- One rate submission in a sequence. -/
structure RateOp where
  rater : Pubkey
  score : Int
  comment : Bytes
  now : Int
deriving DecidableEq, Repr

/-- Sample rate sequence: scores 42 then -10 from two distinct raters. -/
def sampleOps : List RateOp :=
  [{ rater := Pubkey.raw 1, score := 42, comment := [103], now := 6 },
   { rater := Pubkey.raw 2, score := -10, comment := [], now := 7 }]

/-- Run a sequence of rate operations against one agent, stopping at the
first failure. -/
def rateSeq (st : RegistryState) (agent_key : Pubkey) : List RateOp → Except RegError RegistryState
  | [] => .ok st
  | op :: rest =>
    match updateReputation st agent_key op.rater op.score op.comment op.now with
    | .ok st' => rateSeq st' agent_key rest
    | .error e => .error e

/-- Host-level run of a rate sequence: each successful transaction
commits, the first failing one rolls back and stops the run. -/
def applyRateSeq (st : RegistryState) (agent_key : Pubkey) : List RateOp → RegistryState
  | [] => st
  | op :: rest =>
    match updateReputation st agent_key op.rater op.score op.comment op.now with
    | .ok st' => applyRateSeq st' agent_key rest
    | .error _ => st

/-- Pure lookup of an agent record.  Modelled from the spec: the
read(address) / read_agent operation of §4.2 and §6 has no instruction in
the source (an account fetch is performed by the host), and the spec
describes it as a pure lookup with no mutation. -/
def readAgent (st : RegistryState) (addr : Pubkey) : Option AgentAccount :=
  st.agents addr

/-- Well-formedness of the rating store: every stored RatingRecord has a
score in [-100, 100], a comment of at most MAX_COMMENT_LEN bytes, and
agent/rater fields equal to the two seed keys its address was derived
from. -/
def RatingsWF (st : RegistryState) : Prop :=
  ∀ addr rec, st.ratings addr = some rec →
    -100 ≤ rec.score ∧ rec.score ≤ 100 ∧
    rec.comment.length ≤ ReputationRecord.MAX_COMMENT_LEN ∧
    addr = Pubkey.reputationPda rec.agent rec.rater

/-! Permission hooks (permission_hooks.rs).  This module has its own
AgentAccount layout (owner, name, balance, generation, created_at,
permission_group) and delegates group storage to the external MagicBlock
permission program, which the embedding treats as an opaque collaborator
state plus two CPI oracles that may fail. -/

namespace PermissionHooks

/-- AgentAccount from permission_hooks.rs (distinct from the registry's
AgentAccount in state.rs). -/
structure AgentAccount where
  owner : Pubkey
  name : Bytes
  balance : Nat
  generation : Nat
  created_at : Int
  permission_group : Option Pubkey
deriving DecidableEq, Repr

/-- A permission group as held by the external collaborator: its id and
member set. -/
structure Group where
  id : Pubkey
  members : List Pubkey
deriving DecidableEq, Repr

/-- State owned by the external permission program: groups keyed by group
account address, and permission links mapping a delegated account to its
group. -/
structure CollabState where
  groups : Pubkey → Option Group
  links : Pubkey → Option Pubkey

/-- Errors of the permission-hook instructions: a required account is
missing, the #[account(constraint = ...)] owner check fails, or a CPI to
the external permission program fails (the spec's CollaboratorError). -/
inductive PermError where
  | accountNotFound
  | constraintOwnerMismatch
  | collaboratorError
deriving DecidableEq, Repr

/-- Durable state seen by the permission hooks: the local agent accounts
plus the external collaborator's state. -/
structure PermState where
  agents : Pubkey → Option AgentAccount
  collab : CollabState

/-- Type of the CreateGroup CPI (CreateGroupCpiBuilder ... .invoke()): the
external program either rejects (e.g. duplicate group id) or returns its
updated state.  The embedding quantifies over this oracle. -/
abbrev CreateGroupCpi := CollabState → Pubkey → List Pubkey → Except Unit CollabState

/-- Type of the CreatePermission CPI (CreatePermissionCpiBuilder ...
.invoke_signed(agent PDA seeds)): links a delegated account to a group, or
rejects. -/
abbrev CreatePermissionCpi := CollabState → Pubkey → Pubkey → Except Unit CollabState

/-- create_agent_permission (permission_hooks.rs, lines 76-125).  The
accounts context requires the agent account at PDA ["agent", agent_owner].
The body then: [1] invokes the CreateGroup CPI; [2] on success invokes the
CreatePermission CPI on the resulting collaborator state, signing with the
re-derived agent PDA seeds; [3] on both succeeding stores
permission_group := Some(group_id) on the agent account.  Either CPI
failing aborts the instruction via the question-mark operator. -/
def create_agent_permission (cg : CreateGroupCpi) (cp : CreatePermissionCpi)
    (st : PermState) (agent_owner group_id : Pubkey) (members : List Pubkey) :
    Except PermError PermState :=
  match st.agents (Pubkey.agentPda agent_owner) with
  | none => .error .accountNotFound
  | some agent =>
    match cg st.collab group_id members with
    | .error _ => .error .collaboratorError
    | .ok c1 =>
      match cp c1 (Pubkey.agentPda agent_owner) group_id with
      | .error _ => .error .collaboratorError
      | .ok c2 =>
        .ok { agents := fun k =>
                if k = Pubkey.agentPda agent_owner then
                  some { agent with permission_group := some group_id }
                else st.agents k
              collab := c2 }

/-- Host-level semantics of a create_agent_permission transaction: an
aborting instruction rolls back, leaving the pre-state. -/
def applyCreateAgentPermission (cg : CreateGroupCpi) (cp : CreatePermissionCpi)
    (st : PermState) (agent_owner group_id : Pubkey) (members : List Pubkey) : PermState :=
  match create_agent_permission cg cp st agent_owner group_id members with
  | .ok st' => st'
  | .error _ => st

/-- add_group_member (permission_hooks.rs, lines 130-173).  The accounts
context requires the agent account at PDA ["agent", agent_owner] with
constraint agent_account.owner == agent_owner.key().  The handler body
only logs a message: it performs no CPI to the permission program and no
local write, so on success the state is returned unchanged. -/
def add_group_member (st : PermState) (agent_owner group new_member : Pubkey) :
    Except PermError PermState :=
  match st.agents (Pubkey.agentPda agent_owner) with
  | none => .error .accountNotFound
  | some agent =>
    if agent.owner = agent_owner then .ok st
    else .error .constraintOwnerMismatch

/-- remove_group_member (permission_hooks.rs, lines 179-221).  Same
accounts constraints as add_group_member; the handler body only logs a
message and performs no CPI and no local write. -/
def remove_group_member (st : PermState) (agent_owner group member_to_remove : Pubkey) :
    Except PermError PermState :=
  match st.agents (Pubkey.agentPda agent_owner) with
  | none => .error .accountNotFound
  | some agent =>
    if agent.owner = agent_owner then .ok st
    else .error .constraintOwnerMismatch

end PermissionHooks

/-! Concrete sample data used to exercise the operations on closed
inputs. -/

/-- Sample register arguments, all bounds satisfied. -/
def sampleArgs : RegisterArgs :=
  { name := [83, 99, 111, 117, 116]
    description := []
    agent_uri := []
    services := [[104, 105]]
    x402_support := true
    generation := 0 }

/-- Sample arguments whose name has 51 bytes, violating MAX_NAME_LEN. -/
def badNameArgs : RegisterArgs :=
  { sampleArgs with name := List.replicate 51 0 }

/-- Sample arguments satisfying every validated bound whose record does
not fit the fixed allocation: a 200-byte description and a 200-byte uri
put the serialized record at 491 bytes against AgentAccount::BASE_SIZE +
256 = 368 allocated. -/
def bigArgs : RegisterArgs :=
  { sampleArgs with
    description := List.replicate 200 0
    agent_uri := List.replicate 200 0 }

/-- Address of the sample agent owned by key 0. -/
def addrA : Pubkey := Pubkey.agentPda (Pubkey.raw 0)

/-- The sample agent account created by registering key 0 at time 5. -/
def agentA : AgentAccount := newAgentRecord (Pubkey.raw 0) sampleArgs 5

/-- State holding exactly the sample agent. -/
def occSt : RegistryState := setAgent emptySt addrA agentA

/-- State whose sample agent already carries the maximal i64 score. -/
def maxSt : RegistryState :=
  setAgent emptySt addrA { agentA with reputation_score := I64_MAX }

/-- State holding the sample agent plus an existing rating by key 1. -/
def dupSt : RegistryState :=
  setRating occSt (Pubkey.reputationPda addrA (Pubkey.raw 1))
    (newRatingRecord addrA (Pubkey.raw 1) 7 [] 6)

namespace PermissionHooks

/-- Sample permission-hooks agent account owned by key 0. -/
def permAgentA : AgentAccount :=
  { owner := Pubkey.raw 0
    name := []
    balance := 0
    generation := 0
    created_at := 0
    permission_group := none }

/-- Sample collaborator state holding one group (id key 5) with no
members. -/
def collabA : CollabState :=
  { groups := fun k => if k = Pubkey.raw 5 then some { id := Pubkey.raw 5, members := [] } else none
    links := fun _ => none }

/-- Sample permission state: key 0's agent account (owner key 0), plus an
account at key 2's PDA whose stored owner is key 3 (owner mismatch). -/
def permStA : PermState :=
  { agents := fun k =>
      if k = Pubkey.agentPda (Pubkey.raw 0) then some permAgentA
      else if k = Pubkey.agentPda (Pubkey.raw 2) then some { permAgentA with owner := Pubkey.raw 3 }
      else none
    collab := collabA }

/-- CreateGroup CPI oracle that always succeeds, recording the group. -/
def cgOk : CreateGroupCpi := fun c gid members =>
  .ok { c with groups := fun k => if k = gid then some { id := gid, members := members } else c.groups k }

/-- CreateGroup CPI oracle that always rejects. -/
def cgFail : CreateGroupCpi := fun _ _ _ => .error ()

/-- CreatePermission CPI oracle that always succeeds, recording the
link. -/
def cpOk : CreatePermissionCpi := fun c target gid =>
  .ok { c with links := fun k => if k = target then some gid else c.links k }

/-- CreatePermission CPI oracle that always rejects. -/
def cpFail : CreatePermissionCpi := fun _ _ _ => .error ()

/-- Collaborator state after the sample group-creation CPI on the sample
state. -/
def collabAfterGroup : CollabState :=
  match cgOk collabA (Pubkey.raw 6) [] with
  | .ok c => c
  | .error _ => collabA

/-- Collaborator state after both sample CPIs. -/
def collabAfterLink : CollabState :=
  match cpOk collabAfterGroup (Pubkey.agentPda (Pubkey.raw 0)) (Pubkey.raw 6) with
  | .ok c => c
  | .error _ => collabAfterGroup

end PermissionHooks

/-! Helper lemmas characterizing the embedded operations. -/

/-- checked_add_i64 returns some exactly on in-range sums, and the value
is the mathematical sum. -/
theorem checked_add_i64_some_iff {a b t : Int} :
    checked_add_i64 a b = some t ↔
      (I64_MIN ≤ a + b ∧ a + b ≤ I64_MAX) ∧ t = a + b := by
  unfold checked_add_i64
  split
  · rename_i h
    constructor
    · intro hs
      exact ⟨h, (Option.some.injEq _ _ ▸ hs).symm⟩
    · intro ⟨_, ht⟩
      rw [ht]
  · rename_i h
    constructor
    · intro hs
      exact absurd hs (by simp)
    · intro ⟨hr, _⟩
      exact absurd hr h

/-- checked_add_i64 returns none exactly on out-of-range sums. -/
theorem checked_add_i64_none_iff {a b : Int} :
    checked_add_i64 a b = none ↔ ¬(I64_MIN ≤ a + b ∧ a + b ≤ I64_MAX) := by
  unfold checked_add_i64
  split <;> simp_all

/-- Reading back the address just written by setAgent. -/
theorem setAgent_agents_self (st : RegistryState) (addr : Pubkey) (a : AgentAccount) :
    (setAgent st addr a).agents addr = some a := by
  simp [setAgent]

/-- setAgent leaves other agent addresses unchanged. -/
theorem setAgent_agents_ne (st : RegistryState) (addr : Pubkey) (a : AgentAccount)
    (k : Pubkey) (h : k ≠ addr) : (setAgent st addr a).agents k = st.agents k := by
  simp [setAgent, h]

/-- setAgent does not touch the rating store. -/
theorem setAgent_ratings (st : RegistryState) (addr : Pubkey) (a : AgentAccount) :
    (setAgent st addr a).ratings = st.ratings := rfl

/-- setRating does not touch the agent store. -/
theorem setRating_agents (st : RegistryState) (addr : Pubkey) (r : ReputationRecord) :
    (setRating st addr r).agents = st.agents := rfl

/-- Reading back the address just written by setRating. -/
theorem setRating_ratings_self (st : RegistryState) (addr : Pubkey) (r : ReputationRecord) :
    (setRating st addr r).ratings addr = some r := by
  simp [setRating]

/-- setRating leaves other rating addresses unchanged. -/
theorem setRating_ratings_ne (st : RegistryState) (addr : Pubkey) (r : ReputationRecord)
    (k : Pubkey) (h : k ≠ addr) : (setRating st addr r).ratings k = st.ratings k := by
  simp [setRating, h]

/-- registerAgent succeeds on a free address with all bounds satisfied
and the record fitting its allocation, producing exactly the
fully-initialized record. -/
theorem registerAgent_ok_of {st : RegistryState} {auth : Pubkey} {args : RegisterArgs}
    {now : Int} (hfree : st.agents (Pubkey.agentPda auth) = none)
    (h1 : args.name.length ≤ AgentAccount.MAX_NAME_LEN)
    (h2 : args.description.length ≤ AgentAccount.MAX_DESCRIPTION_LEN)
    (h3 : args.agent_uri.length ≤ AgentAccount.MAX_URI_LEN)
    (h4 : args.services.length ≤ AgentAccount.MAX_SERVICES)
    (h5 : ∀ s ∈ args.services, s.length ≤ AgentAccount.MAX_SERVICE_LEN)
    (h6 : AgentAccount.serializedSize (newAgentRecord auth args now) ≤
      AgentAccount.BASE_SIZE + 256) :
    registerAgent st auth args now =
      .ok (setAgent st (Pubkey.agentPda auth) (newAgentRecord auth args now)) := by
  have h5' : ¬∃ s ∈ args.services, s.length > AgentAccount.MAX_SERVICE_LEN := by
    push_neg
    intro s hs
    exact h5 s hs
  simp only [registerAgent, hfree]
  rw [if_neg (Nat.not_lt.mpr h1), if_neg (Nat.not_lt.mpr h2),
    if_neg (Nat.not_lt.mpr h3), if_neg (Nat.not_lt.mpr h4), if_neg h5',
    if_neg (Nat.not_lt.mpr h6)]

/-- Inversion of a successful registerAgent call: the address was free and
the post-state is the pre-state plus the fully-initialized record. -/
theorem registerAgent_ok_inv {st st' : RegistryState} {auth : Pubkey} {args : RegisterArgs}
    {now : Int} (h : registerAgent st auth args now = .ok st') :
    st.agents (Pubkey.agentPda auth) = none ∧
    st' = setAgent st (Pubkey.agentPda auth) (newAgentRecord auth args now) := by
  unfold registerAgent at h
  split at h
  · exact absurd h (by simp)
  · rename_i hfree
    refine ⟨hfree, ?_⟩
    split at h
    · exact absurd h (by simp)
    split at h
    · exact absurd h (by simp)
    split at h
    · exact absurd h (by simp)
    split at h
    · exact absurd h (by simp)
    split at h
    · exact absurd h (by simp)
    split at h
    · exact absurd h (by simp)
    · injection h with h'
      exact h'.symm

/-- An aborting register transaction leaves the pre-state. -/
theorem applyRegister_error {st : RegistryState} {auth : Pubkey} {args : RegisterArgs}
    {now : Int} {e : RegError} (h : registerAgent st auth args now = .error e) :
    applyRegister st auth args now = st := by
  unfold applyRegister
  rw [h]

/-- A successful register transaction commits the returned state. -/
theorem applyRegister_ok {st st' : RegistryState} {auth : Pubkey} {args : RegisterArgs}
    {now : Int} (h : registerAgent st auth args now = .ok st') :
    applyRegister st auth args now = st' := by
  unfold applyRegister
  rw [h]

/-- updateReputation succeeds when every precondition holds and the
record fits its allocation, producing exactly the rating record plus the
checked score update. -/
theorem updateReputation_ok_of {st : RegistryState} {a r : Pubkey} {s : Int} {c : Bytes}
    {now : Int} {ag : AgentAccount} (hag : st.agents a = some ag)
    (hdup : st.ratings (Pubkey.reputationPda a r) = none)
    (hlo : -100 ≤ s) (hhi : s ≤ 100)
    (hc : c.length ≤ ReputationRecord.MAX_COMMENT_LEN)
    (hself : ag.authority ≠ r)
    (hmin : I64_MIN ≤ ag.reputation_score + s)
    (hmax : ag.reputation_score + s ≤ I64_MAX)
    (hsz : ReputationRecord.serializedSize (newRatingRecord a r s c now) ≤
      ReputationRecord.BASE_SIZE + 256) :
    updateReputation st a r s c now = .ok (rateSuccessState st a r s c now ag) := by
  have hadd : checked_add_i64 ag.reputation_score s = some (ag.reputation_score + s) :=
    checked_add_i64_some_iff.mpr ⟨⟨hmin, hmax⟩, rfl⟩
  simp only [updateReputation, hag, hdup, hadd]
  rw [if_neg (not_not.mpr ⟨hlo, hhi⟩), if_neg (Nat.not_lt.mpr hc), if_neg hself,
    if_neg (Nat.not_lt.mpr hsz)]
  rfl

/-- Inversion of a successful updateReputation call: every precondition
held and the post-state is exactly the rating record plus the checked
score update. -/
theorem updateReputation_ok_inv {st st' : RegistryState} {a r : Pubkey} {s : Int}
    {c : Bytes} {now : Int} (h : updateReputation st a r s c now = .ok st') :
    ∃ ag, st.agents a = some ag ∧
      st.ratings (Pubkey.reputationPda a r) = none ∧
      -100 ≤ s ∧ s ≤ 100 ∧
      c.length ≤ ReputationRecord.MAX_COMMENT_LEN ∧
      ag.authority ≠ r ∧
      I64_MIN ≤ ag.reputation_score + s ∧ ag.reputation_score + s ≤ I64_MAX ∧
      st' = rateSuccessState st a r s c now ag := by
  unfold updateReputation at h
  split at h
  · exact absurd h (by simp)
  · rename_i ag hag
    refine ⟨ag, hag, ?_⟩
    split at h
    · exact absurd h (by simp)
    · rename_i hdup
      refine ⟨hdup, ?_⟩
      split at h
      · exact absurd h (by simp)
      · rename_i hscore
        rw [not_not] at hscore
        refine ⟨hscore.1, hscore.2, ?_⟩
        split at h
        · exact absurd h (by simp)
        · rename_i hc
          refine ⟨Nat.not_lt.mp hc, ?_⟩
          split at h
          · exact absurd h (by simp)
          · rename_i hself
            refine ⟨hself, ?_⟩
            split at h
            · exact absurd h (by simp)
            · rename_i total hadd
              obtain ⟨⟨hmin, hmax⟩, htot⟩ := checked_add_i64_some_iff.mp hadd
              subst htot
              split at h
              · exact absurd h (by simp)
              · injection h with h'
                exact ⟨hmin, hmax, h'.symm⟩

/-- An aborting rate transaction leaves the pre-state. -/
theorem applyRate_error {st : RegistryState} {a r : Pubkey} {s : Int} {c : Bytes}
    {now : Int} {e : RegError} (h : updateReputation st a r s c now = .error e) :
    applyRate st a r s c now = st := by
  unfold applyRate
  rw [h]

/-- A successful rate transaction commits the returned state. -/
theorem applyRate_ok {st st' : RegistryState} {a r : Pubkey} {s : Int} {c : Bytes}
    {now : Int} (h : updateReputation st a r s c now = .ok st') :
    applyRate st a r s c now = st' := by
  unfold applyRate
  rw [h]

/-- A successful rate leaves the rated agent's account equal to its old
value except for the score, which grows by exactly the submitted score. -/
theorem updateReputation_ok_agents {st st' : RegistryState} {a r : Pubkey} {s : Int}
    {c : Bytes} {now : Int} {ag : AgentAccount}
    (h : updateReputation st a r s c now = .ok st') (hag : st.agents a = some ag) :
    st'.agents a = some { ag with reputation_score := ag.reputation_score + s } := by
  obtain ⟨ag', hag', _, _, _, _, _, _, _, hst'⟩ := updateReputation_ok_inv h
  rw [hag] at hag'
  cases hag'
  rw [hst']
  unfold rateSuccessState
  rw [setRating_agents, setAgent_agents_self]

/-- Running a fully-successful rate sequence adds exactly the sum of the
submitted scores to the agent's cumulative score. -/
theorem rateSeq_score_sum {ops : List RateOp} :
    ∀ {st st' : RegistryState} {a : Pubkey} {ag : AgentAccount},
      rateSeq st a ops = .ok st' → st.agents a = some ag →
      ∃ ag', st'.agents a = some ag' ∧
        ag'.reputation_score = ag.reputation_score + (ops.map RateOp.score).sum := by
  induction ops with
  | nil =>
    intro st st' a ag h hag
    unfold rateSeq at h
    injection h with h'
    subst h'
    exact ⟨ag, hag, by simp⟩
  | cons op rest ih =>
    intro st st' a ag h hag
    unfold rateSeq at h
    split at h
    · rename_i st1 hstep
      have hmid := updateReputation_ok_agents hstep hag
      obtain ⟨ag', hag', hsum⟩ := ih h hmid
      refine ⟨ag', hag', ?_⟩
      rw [hsum]
      simp [List.sum_cons]
      ring
    · exact absurd h (by simp)

/-- A rate call that passes every validation but whose checked addition
overflows aborts with the arithmetic error. -/
theorem updateReputation_overflow {st : RegistryState} {a r : Pubkey} {s : Int}
    {c : Bytes} {now : Int} {ag : AgentAccount} (hag : st.agents a = some ag)
    (hdup : st.ratings (Pubkey.reputationPda a r) = none)
    (hlo : -100 ≤ s) (hhi : s ≤ 100)
    (hc : c.length ≤ ReputationRecord.MAX_COMMENT_LEN)
    (hself : ag.authority ≠ r)
    (hov : ¬(I64_MIN ≤ ag.reputation_score + s ∧ ag.reputation_score + s ≤ I64_MAX)) :
    updateReputation st a r s c now = .error .arithmeticOverflow := by
  have hadd : checked_add_i64 ag.reputation_score s = none :=
    checked_add_i64_none_iff.mpr hov
  simp only [updateReputation, hag, hdup, hadd]
  rw [if_neg (not_not.mpr ⟨hlo, hhi⟩), if_neg (Nat.not_lt.mpr hc), if_neg hself]

/-- A rate call whose rater is the stored authority never succeeds. -/
theorem updateReputation_self_never_ok {st st' : RegistryState} {a r : Pubkey} {s : Int}
    {c : Bytes} {now : Int} {ag : AgentAccount} (hag : st.agents a = some ag)
    (hself : ag.authority = r) : updateReputation st a r s c now ≠ .ok st' := by
  intro h
  obtain ⟨ag', hag', _, _, _, _, hne, _⟩ := updateReputation_ok_inv h
  rw [hag] at hag'
  injection hag' with h'
  subst h'
  exact hne hself

/-! Claim theorems. -/

/-- C1: after a successful registration (score 0), a fully successful
sequence of rate operations with scores s_1..s_n leaves the agent's
reputation_score equal to exactly sum(s_1..s_n); and a rate call that
passes every earlier validation but whose running sum would leave the
signed 64-bit range fails with the arithmetic error, the transaction
leaving the whole state — in particular reputation_score — at its
pre-call value, with no saturation and no wraparound. -/
theorem C1_score_is_exact_sum_and_overflow_aborts :
    (∀ (st st1 st2 : RegistryState) (auth : Pubkey) (args : RegisterArgs) (now : Int)
       (ops : List RateOp),
       registerAgent st auth args now = .ok st1 →
       rateSeq st1 (Pubkey.agentPda auth) ops = .ok st2 →
       ∃ ag, st2.agents (Pubkey.agentPda auth) = some ag ∧
         ag.reputation_score = (ops.map RateOp.score).sum) ∧
    (∀ (st : RegistryState) (a r : Pubkey) (s : Int) (c : Bytes) (now : Int)
       (ag : AgentAccount),
       st.agents a = some ag →
       st.ratings (Pubkey.reputationPda a r) = none →
       -100 ≤ s → s ≤ 100 → c.length ≤ ReputationRecord.MAX_COMMENT_LEN →
       ag.authority ≠ r →
       ¬(I64_MIN ≤ ag.reputation_score + s ∧ ag.reputation_score + s ≤ I64_MAX) →
       updateReputation st a r s c now = .error .arithmeticOverflow ∧
         applyRate st a r s c now = st) := by
  constructor
  · intro st st1 st2 auth args now ops hreg hseq
    obtain ⟨hfree, hst1⟩ := registerAgent_ok_inv hreg
    have hag1 : st1.agents (Pubkey.agentPda auth) = some (newAgentRecord auth args now) := by
      rw [hst1]
      exact setAgent_agents_self ..
    obtain ⟨ag', hag', hsum⟩ := rateSeq_score_sum hseq hag1
    refine ⟨ag', hag', ?_⟩
    rw [hsum]
    simp [newAgentRecord]
  · intro st a r s c now ag hag hdup hlo hhi hc hself hov
    have herr := @updateReputation_overflow st a r s c now ag hag hdup hlo hhi hc hself hov
    exact ⟨herr, applyRate_error herr⟩

/-- Witness for C1 at closed inputs: registering key 0 and then rating it
with scores 42 and -10 from keys 1 and 2 yields reputation_score 32; and
an agent already at i64::MAX rated +1 aborts with the arithmetic error,
the state staying put. -/
theorem C1_witness :
    (∃ ag, (applyRateSeq (applyRegister emptySt (Pubkey.raw 0) sampleArgs 5)
          (Pubkey.agentPda (Pubkey.raw 0)) sampleOps).agents
            (Pubkey.agentPda (Pubkey.raw 0)) = some ag ∧
      ag.reputation_score = 32) ∧
    (updateReputation maxSt addrA (Pubkey.raw 1) 1 [] 9 = .error .arithmeticOverflow ∧
      applyRate maxSt addrA (Pubkey.raw 1) 1 [] 9 = maxSt) := by
  constructor
  · have hreg : registerAgent emptySt (Pubkey.raw 0) sampleArgs 5 =
        .ok (applyRegister emptySt (Pubkey.raw 0) sampleArgs 5) := by rfl
    have hseq : rateSeq (applyRegister emptySt (Pubkey.raw 0) sampleArgs 5)
        (Pubkey.agentPda (Pubkey.raw 0)) sampleOps =
        .ok (applyRateSeq (applyRegister emptySt (Pubkey.raw 0) sampleArgs 5)
          (Pubkey.agentPda (Pubkey.raw 0)) sampleOps) := by rfl
    obtain ⟨ag, h1, h2⟩ :=
      C1_score_is_exact_sum_and_overflow_aborts.1 emptySt
        (applyRegister emptySt (Pubkey.raw 0) sampleArgs 5)
        (applyRateSeq (applyRegister emptySt (Pubkey.raw 0) sampleArgs 5)
          (Pubkey.agentPda (Pubkey.raw 0)) sampleOps)
        (Pubkey.raw 0) sampleArgs 5 sampleOps hreg hseq
    exact ⟨ag, h1, h2.trans (by decide)⟩
  · exact C1_score_is_exact_sum_and_overflow_aborts.2 maxSt addrA (Pubkey.raw 1) 1 [] 9
      { agentA with reputation_score := I64_MAX } rfl rfl (by decide) (by decide) (by decide)
      (by decide) (by decide)

set_option maxRecDepth 16384

/-- C2: evaluation of the code at the failing input.  These arguments
satisfy every validated bound (name 5, description 200, uri 200, one
2-byte service), yet on a free address the register call aborts:
register_agent.rs line 11 allocates only AgentAccount::BASE_SIZE + 256 =
368 bytes, ignoring the exact AgentAccount::space helper from state.rs,
while this record serializes to 491 bytes, so Anchor fails to serialize
the account at instruction exit; the transaction rolls back and
read_agent at the derived address finds nothing — contradicting the
claim that register followed by read_agent returns the record for all
bounds-satisfying inputs. -/
theorem C2_valid_inputs_abort_on_undersized_allocation :
    bigArgs.name.length ≤ AgentAccount.MAX_NAME_LEN ∧
    bigArgs.description.length ≤ AgentAccount.MAX_DESCRIPTION_LEN ∧
    bigArgs.agent_uri.length ≤ AgentAccount.MAX_URI_LEN ∧
    bigArgs.services.length ≤ AgentAccount.MAX_SERVICES ∧
    (∀ s ∈ bigArgs.services, s.length ≤ AgentAccount.MAX_SERVICE_LEN) ∧
    emptySt.agents (Pubkey.agentPda (Pubkey.raw 0)) = none ∧
    AgentAccount.serializedSize (newAgentRecord (Pubkey.raw 0) bigArgs 3) = 491 ∧
    AgentAccount.BASE_SIZE + 256 = 368 ∧
    registerAgent emptySt (Pubkey.raw 0) bigArgs 3 = .error .accountDidNotSerialize ∧
    readAgent (applyRegister emptySt (Pubkey.raw 0) bigArgs 3)
      (Pubkey.agentPda (Pubkey.raw 0)) = none := by
  refine ⟨by decide, by decide, by decide, by decide, by decide, rfl, by decide, by decide,
    by rfl, by rfl⟩

/-- C3: a rate operation is atomic: on success both the RatingRecord
(with timestamp = now) and the checked score update are observable; on
any abort the transaction leaves the pre-state, so no RatingRecord the
call would have created is observable at the derived address. -/
theorem C3_rate_is_atomic (st : RegistryState) (a r : Pubkey) (s : Int) (c : Bytes)
    (now : Int) :
    (∀ st', updateReputation st a r s c now = .ok st' →
       ∃ ag, st.agents a = some ag ∧
         st'.ratings (Pubkey.reputationPda a r) = some (newRatingRecord a r s c now) ∧
         (newRatingRecord a r s c now).timestamp = now ∧
         st'.agents a = some { ag with reputation_score := ag.reputation_score + s } ∧
         checked_add_i64 ag.reputation_score s = some (ag.reputation_score + s)) ∧
    (∀ e, updateReputation st a r s c now = .error e →
       applyRate st a r s c now = st ∧
       (st.ratings (Pubkey.reputationPda a r) = none →
         (applyRate st a r s c now).ratings (Pubkey.reputationPda a r) = none)) := by
  constructor
  · intro st' h
    obtain ⟨ag, hag, hdup, hlo, hhi, hc, hself, hmin, hmax, hst'⟩ := updateReputation_ok_inv h
    refine ⟨ag, hag, ?_, rfl, updateReputation_ok_agents h hag,
      checked_add_i64_some_iff.mpr ⟨⟨hmin, hmax⟩, rfl⟩⟩
    rw [hst']
    exact setRating_ratings_self ..
  · intro e h
    have happ := applyRate_error h
    refine ⟨happ, fun hnone => ?_⟩
    rw [happ]
    exact hnone

/-- Witness for C3 at closed inputs: a successful rating by key 1, and an
aborting (self-rating) call by key 0, on the sample state. -/
theorem C3_witness :
    (∃ ag, occSt.agents addrA = some ag ∧
       (rateSuccessState occSt addrA (Pubkey.raw 1) 42 [103] 6 agentA).ratings
           (Pubkey.reputationPda addrA (Pubkey.raw 1)) =
         some (newRatingRecord addrA (Pubkey.raw 1) 42 [103] 6) ∧
       (newRatingRecord addrA (Pubkey.raw 1) 42 [103] 6).timestamp = 6 ∧
       (rateSuccessState occSt addrA (Pubkey.raw 1) 42 [103] 6 agentA).agents addrA =
         some { ag with reputation_score := ag.reputation_score + 42 } ∧
       checked_add_i64 ag.reputation_score 42 = some (ag.reputation_score + 42)) ∧
    (applyRate occSt addrA (Pubkey.raw 0) 7 [] 8 = occSt ∧
      (occSt.ratings (Pubkey.reputationPda addrA (Pubkey.raw 0)) = none →
        (applyRate occSt addrA (Pubkey.raw 0) 7 [] 8).ratings
          (Pubkey.reputationPda addrA (Pubkey.raw 0)) = none)) := by
  constructor
  · exact (C3_rate_is_atomic occSt addrA (Pubkey.raw 1) 42 [103] 6).1
      (rateSuccessState occSt addrA (Pubkey.raw 1) 42 [103] 6 agentA) rfl
  · exact (C3_rate_is_atomic occSt addrA (Pubkey.raw 0) 7 [] 8).2 .cannotRateSelf rfl

/-- C4: a second creation attempt at an already-occupied derived address
is rejected with the conflict error and leaves existing state unmodified:
a duplicate register leaves the original AgentRecord unchanged, and a
duplicate rate for the same (agent, rater) pair leaves both the agent's
cumulative score and the first RatingRecord unchanged. -/
theorem C4_first_writer_wins :
    (∀ (st : RegistryState) (auth : Pubkey) (args : RegisterArgs) (now : Int)
       (a : AgentAccount),
       st.agents (Pubkey.agentPda auth) = some a →
       registerAgent st auth args now = .error .accountAlreadyInUse ∧
       applyRegister st auth args now = st ∧
       (applyRegister st auth args now).agents (Pubkey.agentPda auth) = some a) ∧
    (∀ (st : RegistryState) (a r : Pubkey) (s : Int) (c : Bytes) (now : Int)
       (ag : AgentAccount) (rec : ReputationRecord),
       st.agents a = some ag →
       st.ratings (Pubkey.reputationPda a r) = some rec →
       updateReputation st a r s c now = .error .accountAlreadyInUse ∧
       applyRate st a r s c now = st ∧
       (applyRate st a r s c now).agents a = some ag ∧
       (applyRate st a r s c now).ratings (Pubkey.reputationPda a r) = some rec) := by
  constructor
  · intro st auth args now a hocc
    have herr : registerAgent st auth args now = .error .accountAlreadyInUse := by
      simp only [registerAgent, hocc]
    have happ := applyRegister_error herr
    refine ⟨herr, happ, ?_⟩
    rw [happ]
    exact hocc
  · intro st a r s c now ag rec hag hocc
    have herr : updateReputation st a r s c now = .error .accountAlreadyInUse := by
      simp only [updateReputation, hag, hocc]
    have happ := applyRate_error herr
    refine ⟨herr, happ, ?_, ?_⟩
    · rw [happ]; exact hag
    · rw [happ]; exact hocc

/-- Witness for C4 at closed inputs: re-registering key 0 over the sample
record, and re-rating by key 1 over its existing rating. -/
theorem C4_witness :
    (registerAgent occSt (Pubkey.raw 0) sampleArgs 9 = .error .accountAlreadyInUse ∧
      applyRegister occSt (Pubkey.raw 0) sampleArgs 9 = occSt ∧
      (applyRegister occSt (Pubkey.raw 0) sampleArgs 9).agents addrA = some agentA) ∧
    (updateReputation dupSt addrA (Pubkey.raw 1) 3 [] 9 = .error .accountAlreadyInUse ∧
      applyRate dupSt addrA (Pubkey.raw 1) 3 [] 9 = dupSt ∧
      (applyRate dupSt addrA (Pubkey.raw 1) 3 [] 9).agents addrA = some agentA ∧
      (applyRate dupSt addrA (Pubkey.raw 1) 3 [] 9).ratings
          (Pubkey.reputationPda addrA (Pubkey.raw 1)) =
        some (newRatingRecord addrA (Pubkey.raw 1) 7 [] 6)) := by
  constructor
  · exact C4_first_writer_wins.1 occSt (Pubkey.raw 0) sampleArgs 9 agentA rfl
  · exact C4_first_writer_wins.2 dupSt addrA (Pubkey.raw 1) 3 [] 9 agentA
      (newRatingRecord addrA (Pubkey.raw 1) 7 [] 6) rfl rfl

/-- C5 counterexample: the claim says a self-rating fails with the
AuthorizationError (CannotRateSelf) for EVERY score and comment, but the
handler validates the score range first: at score 101 the self-rating by
the owner key 0 fails with the validation error InvalidReputationScore,
which is a different error. -/
theorem C5_counterexample :
    agentA.authority = Pubkey.raw 0 ∧
    updateReputation occSt addrA (Pubkey.raw 0) 101 [] 7 =
      .error .invalidReputationScore ∧
    RegError.invalidReputationScore ≠ RegError.cannotRateSelf := by
  refine ⟨rfl, by rfl, by decide⟩

/-- C5 (amended): a rate call whose rater equals the agent's stored
authority always fails and performs no state change; whenever the score
and comment pass validation and no rating record already occupies the
derived address, the failure is specifically CannotRateSelf — an
out-of-range score or over-long comment fails with the corresponding
validation error instead, since validation runs first. -/
theorem C5_self_rating_always_fails (st : RegistryState) (a r : Pubkey) (s : Int)
    (c : Bytes) (now : Int) (ag : AgentAccount)
    (hag : st.agents a = some ag) (hself : ag.authority = r) :
    (∃ e, updateReputation st a r s c now = .error e) ∧
    applyRate st a r s c now = st ∧
    (st.ratings (Pubkey.reputationPda a r) = none → -100 ≤ s → s ≤ 100 →
      c.length ≤ ReputationRecord.MAX_COMMENT_LEN →
      updateReputation st a r s c now = .error .cannotRateSelf) := by
  refine ⟨?_, ?_, ?_⟩
  · cases hu : updateReputation st a r s c now with
    | error e => exact ⟨e, rfl⟩
    | ok st' => exact absurd hu (updateReputation_self_never_ok hag hself)
  · cases hu : updateReputation st a r s c now with
    | error e => exact applyRate_error hu
    | ok st' => exact absurd hu (updateReputation_self_never_ok hag hself)
  · intro hdup hlo hhi hc
    simp only [updateReputation, hag, hdup]
    rw [if_neg (not_not.mpr ⟨hlo, hhi⟩), if_neg (Nat.not_lt.mpr hc), if_pos hself]

/-- Witness for the amended C5 at closed inputs: owner key 0 rating its
own agent with a valid score fails with CannotRateSelf and changes
nothing. -/
theorem C5_witness :
    (∃ e, updateReputation occSt addrA (Pubkey.raw 0) 7 [] 8 = .error e) ∧
    applyRate occSt addrA (Pubkey.raw 0) 7 [] 8 = occSt ∧
    (occSt.ratings (Pubkey.reputationPda addrA (Pubkey.raw 0)) = none → -100 ≤ (7 : Int) →
      (7 : Int) ≤ 100 → ([] : Bytes).length ≤ ReputationRecord.MAX_COMMENT_LEN →
      updateReputation occSt addrA (Pubkey.raw 0) 7 [] 8 = .error .cannotRateSelf) :=
  C5_self_rating_always_fails occSt addrA (Pubkey.raw 0) 7 [] 8 agentA rfl rfl

/-- C8 counterexample (negation of the claim's second conjunct): no
register call can produce a record whose parent field is anything but
None — the instruction has no parent parameter and the handler
unconditionally writes None. -/
theorem C8_counterexample :
    ¬∃ (st st' : RegistryState) (auth : Pubkey) (args : RegisterArgs) (now : Int)
        (rec : AgentAccount),
      registerAgent st auth args now = .ok st' ∧
      st'.agents (Pubkey.agentPda auth) = some rec ∧
      rec.parent_agent ≠ none := by
  rintro ⟨st, st', auth, args, now, rec, hreg, hrec, hne⟩
  obtain ⟨-, hst'⟩ := registerAgent_ok_inv hreg
  rw [hst', setAgent_agents_self] at hrec
  injection hrec with h'
  rw [← h'] at hne
  exact hne rfl

/-- C8 (amended): every successful register call initializes the created
record's parent field to None; the caller cannot supply a parent at
registration — the instruction has no parent argument, and the code
comment defers offspring linking to a later path that does not exist in
this core. -/
theorem C8_parent_is_always_none (st st' : RegistryState) (auth : Pubkey)
    (args : RegisterArgs) (now : Int)
    (h : registerAgent st auth args now = .ok st') :
    ∃ rec, st'.agents (Pubkey.agentPda auth) = some rec ∧ rec.parent_agent = none := by
  obtain ⟨-, hst'⟩ := registerAgent_ok_inv h
  rw [hst']
  exact ⟨newAgentRecord auth args now, setAgent_agents_self .., rfl⟩

/-- Witness for the amended C8 at closed inputs. -/
theorem C8_witness :
    ∃ rec, (applyRegister emptySt (Pubkey.raw 0) sampleArgs 5).agents
        (Pubkey.agentPda (Pubkey.raw 0)) = some rec ∧ rec.parent_agent = none :=
  C8_parent_is_always_none emptySt (applyRegister emptySt (Pubkey.raw 0) sampleArgs 5)
    (Pubkey.raw 0) sampleArgs 5 (by rfl)

/-- C9 counterexample: the claim quantifies over every register call with
a violated bound, but when the derived address is also already occupied
the Anchor accounts context fails first: with a 51-byte name and an
occupied address the call aborts with the conflict error, not the named
validation error. -/
theorem C9_counterexample :
    badNameArgs.name.length > AgentAccount.MAX_NAME_LEN ∧
    registerAgent occSt (Pubkey.raw 0) badNameArgs 3 = .error .accountAlreadyInUse ∧
    RegError.accountAlreadyInUse ≠ RegError.nameTooLong := by
  refine ⟨by decide, by rfl, by decide⟩

/-- C9 (amended): for every register call whose derived address is not
already occupied, the violation of any input bound aborts the operation
with the corresponding named validation error and performs no write at
all; when the address is occupied, the conflict error takes precedence
because account creation fails before the handler's validation runs, and
the operation still performs no write. -/
theorem C9_validation_aborts_with_named_error (st : RegistryState) (auth : Pubkey)
    (args : RegisterArgs) (now : Int)
    (hfree : st.agents (Pubkey.agentPda auth) = none)
    (hviol : args.name.length > AgentAccount.MAX_NAME_LEN ∨
             args.description.length > AgentAccount.MAX_DESCRIPTION_LEN ∨
             args.agent_uri.length > AgentAccount.MAX_URI_LEN ∨
             args.services.length > AgentAccount.MAX_SERVICES ∨
             ∃ s ∈ args.services, s.length > AgentAccount.MAX_SERVICE_LEN) :
    ∃ e, registerAgent st auth args now = .error e ∧
      applyRegister st auth args now = st ∧
      ((e = .nameTooLong ∧ args.name.length > AgentAccount.MAX_NAME_LEN) ∨
       (e = .descriptionTooLong ∧
         args.description.length > AgentAccount.MAX_DESCRIPTION_LEN) ∨
       (e = .uriTooLong ∧ args.agent_uri.length > AgentAccount.MAX_URI_LEN) ∨
       (e = .tooManyServices ∧ args.services.length > AgentAccount.MAX_SERVICES) ∨
       (e = .serviceNameTooLong ∧
         ∃ s ∈ args.services, s.length > AgentAccount.MAX_SERVICE_LEN)) := by
  by_cases h1 : args.name.length > AgentAccount.MAX_NAME_LEN
  · have herr : registerAgent st auth args now = .error .nameTooLong := by
      simp only [registerAgent, hfree]
      rw [if_pos h1]
    exact ⟨_, herr, applyRegister_error herr, Or.inl ⟨rfl, h1⟩⟩
  · by_cases h2 : args.description.length > AgentAccount.MAX_DESCRIPTION_LEN
    · have herr : registerAgent st auth args now = .error .descriptionTooLong := by
        simp only [registerAgent, hfree]
        rw [if_neg h1, if_pos h2]
      exact ⟨_, herr, applyRegister_error herr, Or.inr (Or.inl ⟨rfl, h2⟩)⟩
    · by_cases h3 : args.agent_uri.length > AgentAccount.MAX_URI_LEN
      · have herr : registerAgent st auth args now = .error .uriTooLong := by
          simp only [registerAgent, hfree]
          rw [if_neg h1, if_neg h2, if_pos h3]
        exact ⟨_, herr, applyRegister_error herr, Or.inr (Or.inr (Or.inl ⟨rfl, h3⟩))⟩
      · by_cases h4 : args.services.length > AgentAccount.MAX_SERVICES
        · have herr : registerAgent st auth args now = .error .tooManyServices := by
            simp only [registerAgent, hfree]
            rw [if_neg h1, if_neg h2, if_neg h3, if_pos h4]
          exact ⟨_, herr, applyRegister_error herr,
            Or.inr (Or.inr (Or.inr (Or.inl ⟨rfl, h4⟩)))⟩
        · by_cases h5 : ∃ s ∈ args.services, s.length > AgentAccount.MAX_SERVICE_LEN
          · have herr : registerAgent st auth args now = .error .serviceNameTooLong := by
              simp only [registerAgent, hfree]
              rw [if_neg h1, if_neg h2, if_neg h3, if_neg h4, if_pos h5]
            exact ⟨_, herr, applyRegister_error herr,
              Or.inr (Or.inr (Or.inr (Or.inr ⟨rfl, h5⟩)))⟩
          · rcases hviol with h | h | h | h | h
            · exact absurd h h1
            · exact absurd h h2
            · exact absurd h h3
            · exact absurd h h4
            · exact absurd h h5

/-- Witness for the amended C9 at closed inputs: a 51-byte name on a free
address aborts with NameTooLong and writes nothing. -/
theorem C9_witness :
    ∃ e, registerAgent emptySt (Pubkey.raw 0) badNameArgs 3 = .error e ∧
      applyRegister emptySt (Pubkey.raw 0) badNameArgs 3 = emptySt ∧
      ((e = .nameTooLong ∧ badNameArgs.name.length > AgentAccount.MAX_NAME_LEN) ∨
       (e = .descriptionTooLong ∧
         badNameArgs.description.length > AgentAccount.MAX_DESCRIPTION_LEN) ∨
       (e = .uriTooLong ∧ badNameArgs.agent_uri.length > AgentAccount.MAX_URI_LEN) ∨
       (e = .tooManyServices ∧ badNameArgs.services.length > AgentAccount.MAX_SERVICES) ∨
       (e = .serviceNameTooLong ∧
         ∃ s ∈ badNameArgs.services, s.length > AgentAccount.MAX_SERVICE_LEN)) :=
  C9_validation_aborts_with_named_error emptySt (Pubkey.raw 0) badNameArgs 3 rfl
    (Or.inl (by decide))

/-- C10: the rating-store invariant — every stored RatingRecord has score
in [-100, 100], comment of at most 500 bytes, and agent/rater fields
equal to the two seed keys its address was derived from — is preserved by
every registry operation (register and rate transactions). -/
theorem C10_rating_invariant_preserved (st : RegistryState) (h : RatingsWF st) :
    (∀ auth args now, RatingsWF (applyRegister st auth args now)) ∧
    (∀ a r s c now, RatingsWF (applyRate st a r s c now)) := by
  constructor
  · intro auth args now addr rec hrec
    have hsame : (applyRegister st auth args now).ratings = st.ratings := by
      cases hreg : registerAgent st auth args now with
      | error e => rw [applyRegister_error hreg]
      | ok st' =>
        rw [applyRegister_ok hreg]
        obtain ⟨-, hst'⟩ := registerAgent_ok_inv hreg
        rw [hst']
        exact setAgent_ratings ..
    rw [hsame] at hrec
    exact h addr rec hrec
  · intro a r s c now addr rec hrec
    cases hu : updateReputation st a r s c now with
    | error e =>
      rw [applyRate_error hu] at hrec
      exact h addr rec hrec
    | ok st' =>
      rw [applyRate_ok hu] at hrec
      obtain ⟨ag, hag, hdup, hlo, hhi, hc, hself, hmin, hmax, hst'⟩ :=
        updateReputation_ok_inv hu
      rw [hst'] at hrec
      unfold rateSuccessState at hrec
      by_cases haddr : addr = Pubkey.reputationPda a r
      · subst haddr
        rw [setRating_ratings_self] at hrec
        injection hrec with h'
        rw [← h']
        exact ⟨hlo, hhi, hc, rfl⟩
      · rw [setRating_ratings_ne _ _ _ _ haddr, setAgent_ratings] at hrec
        exact h addr rec hrec

/-- Witness for C10 at closed inputs: the empty store satisfies the
invariant and it is preserved across a register followed by a rate. -/
theorem C10_witness :
    RatingsWF (applyRate (applyRegister emptySt (Pubkey.raw 0) sampleArgs 5)
      (Pubkey.agentPda (Pubkey.raw 0)) (Pubkey.raw 1) 42 [103] 6) := by
  have h0 : RatingsWF emptySt := by
    intro addr rec hrec
    simp only [emptySt] at hrec
    exact Option.noConfusion hrec
  have h1 := (C10_rating_invariant_preserved emptySt h0).1 (Pubkey.raw 0) sampleArgs 5
  exact (C10_rating_invariant_preserved _ h1).2 (Pubkey.agentPda (Pubkey.raw 0))
    (Pubkey.raw 1) 42 [103] 6

namespace PermissionHooks

/-- C6: evaluation of the membership hooks at concrete inputs.  The owner
gate is enforced — a stored owner differing from the signing agent_owner
aborts with the constraint error — and a successful call returns the
durable state unchanged; but unchanged state also means the collaborator's
group membership is never mutated and no delegated call is made (the
handler bodies only log), contradicting the claimed delegation: after a
successful add_group_member of key 9, group 5's member set is still
empty. -/
theorem C6_membership_hooks_do_not_delegate :
    add_group_member permStA (Pubkey.raw 0) (Pubkey.raw 5) (Pubkey.raw 9) = .ok permStA ∧
    remove_group_member permStA (Pubkey.raw 0) (Pubkey.raw 5) (Pubkey.raw 9) = .ok permStA ∧
    (permStA.collab.groups (Pubkey.raw 5)).map Group.members = some [] ∧
    add_group_member permStA (Pubkey.raw 2) (Pubkey.raw 5) (Pubkey.raw 9) =
      .error .constraintOwnerMismatch ∧
    remove_group_member permStA (Pubkey.raw 2) (Pubkey.raw 5) (Pubkey.raw 9) =
      .error .constraintOwnerMismatch :=
  ⟨rfl, rfl, rfl, rfl, rfl⟩

/-- C7: in create_agent_permission the local permission_group write
happens only after both collaborator calls succeed, in their order: if
the group-creation CPI fails, the operation fails with the collaborator
error, the outcome is identical under every possible permission-link CPI
(the link call is never reached), and the transaction leaves the
pre-state; if the link CPI fails after a successful group CPI, the
operation fails and the transaction leaves the pre-state, so
permission_group retains its prior value; when both succeed, the agent's
permission_group is set to the group id and the collaborator state is
the one produced by the second call. -/
theorem C7_link_write_only_after_both_cpis (cg : CreateGroupCpi)
    (cp : CreatePermissionCpi) (st : PermState) (o gid : Pubkey)
    (members : List Pubkey) (ag : AgentAccount)
    (hag : st.agents (Pubkey.agentPda o) = some ag) :
    (cg st.collab gid members = .error () →
       create_agent_permission cg cp st o gid members = .error .collaboratorError ∧
       (∀ cp', create_agent_permission cg cp st o gid members =
          create_agent_permission cg cp' st o gid members) ∧
       applyCreateAgentPermission cg cp st o gid members = st) ∧
    (∀ c1, cg st.collab gid members = .ok c1 →
       cp c1 (Pubkey.agentPda o) gid = .error () →
       create_agent_permission cg cp st o gid members = .error .collaboratorError ∧
       applyCreateAgentPermission cg cp st o gid members = st) ∧
    (∀ c1 c2, cg st.collab gid members = .ok c1 →
       cp c1 (Pubkey.agentPda o) gid = .ok c2 →
       ∃ st', create_agent_permission cg cp st o gid members = .ok st' ∧
         st'.agents (Pubkey.agentPda o) =
           some { ag with permission_group := some gid } ∧
         st'.collab = c2) := by
  refine ⟨?_, ?_, ?_⟩
  · intro hfail
    have herr : create_agent_permission cg cp st o gid members =
        .error .collaboratorError := by
      simp only [create_agent_permission, hag, hfail]
    refine ⟨herr, ?_, ?_⟩
    · intro cp'
      simp only [create_agent_permission, hag, hfail]
    · unfold applyCreateAgentPermission
      rw [herr]
  · intro c1 h1 h2
    have herr : create_agent_permission cg cp st o gid members =
        .error .collaboratorError := by
      simp only [create_agent_permission, hag, h1, h2]
    refine ⟨herr, ?_⟩
    unfold applyCreateAgentPermission
    rw [herr]
  · intro c1 c2 h1 h2
    have hok : create_agent_permission cg cp st o gid members =
        .ok { agents := fun k =>
                if k = Pubkey.agentPda o then
                  some { ag with permission_group := some gid }
                else st.agents k
              collab := c2 } := by
      simp only [create_agent_permission, hag, h1, h2]
    refine ⟨_, hok, ?_, rfl⟩
    simp

/-- Witness for C7 at closed inputs, exercising all three branches with
concrete collaborator oracles on the sample state. -/
theorem C7_witness :
    (create_agent_permission cgFail cpOk permStA (Pubkey.raw 0) (Pubkey.raw 6) [] =
        .error .collaboratorError ∧
      (∀ cp', create_agent_permission cgFail cpOk permStA (Pubkey.raw 0) (Pubkey.raw 6) [] =
        create_agent_permission cgFail cp' permStA (Pubkey.raw 0) (Pubkey.raw 6) []) ∧
      applyCreateAgentPermission cgFail cpOk permStA (Pubkey.raw 0) (Pubkey.raw 6) [] =
        permStA) ∧
    (create_agent_permission cgOk cpFail permStA (Pubkey.raw 0) (Pubkey.raw 6) [] =
        .error .collaboratorError ∧
      applyCreateAgentPermission cgOk cpFail permStA (Pubkey.raw 0) (Pubkey.raw 6) [] =
        permStA) ∧
    (∃ st', create_agent_permission cgOk cpOk permStA (Pubkey.raw 0) (Pubkey.raw 6) [] =
        .ok st' ∧
      st'.agents (Pubkey.agentPda (Pubkey.raw 0)) =
        some { permAgentA with permission_group := some (Pubkey.raw 6) } ∧
      st'.collab = collabAfterLink) := by
  refine ⟨?_, ?_, ?_⟩
  · exact (C7_link_write_only_after_both_cpis cgFail cpOk permStA (Pubkey.raw 0)
      (Pubkey.raw 6) [] permAgentA rfl).1 rfl
  · exact (C7_link_write_only_after_both_cpis cgOk cpFail permStA (Pubkey.raw 0)
      (Pubkey.raw 6) [] permAgentA rfl).2.1 collabAfterGroup rfl rfl
  · exact (C7_link_write_only_after_both_cpis cgOk cpOk permStA (Pubkey.raw 0)
      (Pubkey.raw 6) [] permAgentA rfl).2.2 collabAfterGroup collabAfterLink rfl rfl

end PermissionHooks

end AgentRegistry
